import Mathlib

/-!
Shallow embedding of the LiveKit server startup/lifecycle core:
backend selection (`createRedisClient`, `createStore`, `getMessageBus`),
feature-store derivation (`getEgressStore`, `getIngressStore`, `getSIPStore`,
`getAgentStore`), credential loading (`createKeyProvider`), configuration
resolution (`getConfigString`, the dev-mode adjustment in `getConfig`),
the signal-driven two-phase shutdown loop of `startServer`, and the
exit-code behaviour of `main`.

Filesystems are modelled as functions from path to optional file data;
machine errors are `Except`/`Option`-valued; key maps are association lists.
-/

namespace LiveKit

/-- An opaque handle to a connected Redis client (`redis.UniversalClient`
that is non-nil). The payload is irrelevant to this core. -/
structure RedisClient where
  id : Nat
deriving DecidableEq, Repr

/-- The coordination endpoint data of `conf.Redis` when it is configured
(`conf.Redis.IsConfigured()` true). Contents are opaque to this core. -/
structure RedisEndpoint where
  address : String
deriving DecidableEq, Repr

/-- Model of `ObjectStore`: the storage backend. `NewRedisStore(rc)` wraps a Redis
client; `NewLocalStore()` is the in-process, non-persistent store. -/
inductive ObjectStore where
  | redisStore (rc : RedisClient)
  | localStore
deriving DecidableEq, Repr

/-- Model of `psrpc.MessageBus`: either the Redis-backed bus or the local in-process
bus. -/
inductive MessageBus where
  | redisBus (rc : RedisClient)
  | localBus
deriving DecidableEq, Repr

/-- Model of `createRedisClient`: returns no client when the coordination endpoint is
not configured; otherwise delegates to the external `GetRedisClient`, which
may fail. The external library call is abstracted as the `connect`
parameter. -/
def createRedisClient (connect : RedisEndpoint → Except String RedisClient)
    (redisConf : Option RedisEndpoint) : Except String (Option RedisClient) :=
  match redisConf with
  | none => Except.ok none
  | some ep =>
    match connect ep with
    | Except.ok rc => Except.ok (some rc)
    | Except.error e => Except.error e

/-- Model of `createStore`: Redis store when a Redis client exists, local store
otherwise. -/
def createStore (rc : Option RedisClient) : ObjectStore :=
  match rc with
  | some c => ObjectStore.redisStore c
  | none => ObjectStore.localStore

/-- Model of `getMessageBus`: local bus when the Redis client is nil, Redis bus
otherwise. -/
def getMessageBus (rc : Option RedisClient) : MessageBus :=
  match rc with
  | none => MessageBus.localBus
  | some c => MessageBus.redisBus c

/-- Whether a storage backend is the in-process (standalone) kind. -/
def ObjectStore.isLocal : ObjectStore → Bool
  | ObjectStore.redisStore _ => false
  | ObjectStore.localStore => true

/-- Whether a message bus is the in-process (standalone) kind. -/
def MessageBus.isLocal : MessageBus → Bool
  | MessageBus.redisBus _ => false
  | MessageBus.localBus => true

/-- Model of `getEgressStore`: the type-switch returns the store itself for a
`*RedisStore` and nil (modelled `none`) for every other backend. -/
def getEgressStore (s : ObjectStore) : Option ObjectStore :=
  match s with
  | ObjectStore.redisStore _ => some s
  | _ => none

/-- Model of `getIngressStore`: the type-switch returns the store itself for a
`*RedisStore` and nil (modelled `none`) for every other backend. -/
def getIngressStore (s : ObjectStore) : Option ObjectStore :=
  match s with
  | ObjectStore.redisStore _ => some s
  | _ => none

/-- Model of `getSIPStore`: the type-switch returns the store itself for a
`*RedisStore` and nil (modelled `none`) for every other backend. -/
def getSIPStore (s : ObjectStore) : Option ObjectStore :=
  match s with
  | ObjectStore.redisStore _ => some s
  | _ => none

/-- Model of `getAgentStore`: both the Redis store and the local store support the
agent feature. -/
def getAgentStore (s : ObjectStore) : Option ObjectStore :=
  match s with
  | ObjectStore.redisStore _ => some s
  | ObjectStore.localStore => some s

/-- The termination signals `signal.Notify` subscribes to in `startServer`:
SIGINT, SIGTERM, SIGQUIT. The handler loop treats them uniformly. -/
inductive Sig where
  | sigint
  | sigterm
  | sigquit
deriving DecidableEq, Repr

/-- One iteration of the signal-handling goroutine of `startServer`
(`for i := range 2 ... go server.Stop(i > 0)`): `handled` counts signals
already consumed. While fewer than two signals have been consumed, the
arriving signal produces a stop request whose `force` flag is
`handled > 0`; after the second the loop has exited, so a signal produces
nothing. -/
def startServerSignalStep (handled : Nat) (_s : Sig) : Nat × Option Bool :=
  if handled < 2 then (handled + 1, some (decide (handled > 0)))
  else (handled, none)

/-- Running the `startServer` signal loop over a sequence of arriving
signals, collecting the emitted stop requests (`force` flags) in order. -/
def startServerSignalRun (handled : Nat) : List Sig → List Bool
  | [] => []
  | s :: rest =>
    match startServerSignalStep handled s with
    | (h, some b) => b :: startServerSignalRun h rest
    | (h, none) => startServerSignalRun h rest

/-- How one execution of the command inside `main` ends: it panics (caught
by the deferred `rtc.Recover` boundary), returns an error from `cmd.Run`,
or completes normally. -/
inductive CmdOutcome where
  | panicked
  | errored (msg : String)
  | completed
deriving DecidableEq, Repr

/-- The observable end of `main`: the process exit status and the error
messages printed. A recovered panic exits with status 1; an error from
`cmd.Run` is printed with `fmt.Println` and `main` returns normally
(status 0); normal completion is status 0. -/
def mainResult (o : CmdOutcome) : Nat × List String :=
  match o with
  | CmdOutcome.panicked => (1, [])
  | CmdOutcome.errored msg => (0, [msg])
  | CmdOutcome.completed => (0, [])

/-- The process exit status of `main`. -/
def mainExitCode (o : CmdOutcome) : Nat :=
  (mainResult o).1

/-- A filesystem for `getConfigString`: maps a path to the file contents
when the file exists and is readable, `none` when `os.ReadFile` would
fail. -/
abbrev ConfigFS : Type := String → Option String

/-- Model of `getConfigString(configFile, inConfigBody)`: returns the inline body
unread from disk when it is non-empty or when no file path is given;
otherwise reads the file, propagating a read failure as an error with an
empty resolved string. Result is `(resolved, err)` mirroring Go's pair
return. -/
def getConfigString (fs : ConfigFS) (configFile inConfigBody : String) :
    String × Option String :=
  if inConfigBody ≠ "" ∨ configFile = "" then (inConfigBody, none)
  else
    match fs configFile with
    | some contents => (contents, none)
    | none => ("", some ("read " ++ configFile ++ ": no such file"))

/-- A key map (`conf.Keys`, `map[string]string`): an association list from
API key to secret. -/
abbrev KeyMap : Type := List (String × String)

/-- Setting one entry of a key map, as YAML decoding does into an existing
Go map: an existing key is overwritten, a new key is appended. -/
def setKey (m : KeyMap) (k v : String) : KeyMap :=
  if m.any (fun p => p.1 = k) then
    m.map (fun p => if p.1 = k then (k, v) else p)
  else
    m ++ [(k, v)]

/-- Model of the `yaml` decoding of the key file into the existing `conf.Keys` map:
every decoded entry is stored into the map, overwriting same-named keys
and keeping the rest (Go map merge semantics). -/
def mergeKeys (old : KeyMap) (decoded : KeyMap) : KeyMap :=
  decoded.foldl (fun m p => setKey m p.1 p.2) old

/-- What `createKeyProvider` observes about the key file on disk:
`perm` is the full Unix permission word of the file (`st.Mode().Perm()`),
and `parsed` is the result of YAML-decoding its contents (`none` when the
decoder fails). -/
structure KeyFileData where
  perm : Nat
  parsed : Option KeyMap

/-- A filesystem for `createKeyProvider`: maps a path to the file data when
`os.Stat` succeeds, `none` when it fails. -/
abbrev KeyFS : Type := String → Option KeyFileData

/-- The "others" permission bits of a permission word (`perm & 0o007`). -/
def otherBits (perm : Nat) : Nat :=
  perm % 8

/-- Model of the key-file branch of `createKeyProvider`: when
`conf.KeyFile` is non-empty, `os.Stat` the file (failure is an error),
reject any non-zero "others" permission bit, YAML-decode it (failure is an
error) merging the decoded entries into `conf.Keys`; when `conf.KeyFile`
is empty, leave `conf.Keys` untouched. -/
def loadKeyFile (fs : KeyFS) (keyFile : String) (keys : KeyMap) :
    Except String KeyMap :=
  if keyFile ≠ "" then
    match fs keyFile with
    | none => Except.error ("stat " ++ keyFile ++ ": no such file")
    | some f =>
      if otherBits f.perm ≠ 0 then
        Except.error "key file others permissions must be set to 0"
      else
        match f.parsed with
        | none => Except.error "yaml: decode error"
        | some decoded => Except.ok (mergeKeys keys decoded)
  else Except.ok keys

/-- Model of `createKeyProvider(conf)`: when `conf.KeyFile` is non-empty the file is
consulted first — stat failure is an error, any non-zero "others"
permission bit is an error, a decode failure is an error, and on success
the decoded entries are merged into `conf.Keys`. If the resulting key set
is empty the call fails; otherwise the key map backs the returned
provider. -/
def createKeyProvider (fs : KeyFS) (keyFile : String) (keys : KeyMap) :
    Except String KeyMap :=
  match loadKeyFile fs keyFile keys with
  | Except.error e => Except.error e
  | Except.ok ks =>
    if ks.length = 0 then
      Except.error
        "one of key-file or keys must be provided in order to support a secure installation"
    else Except.ok ks

/-- The slice of `config.Config` that the dev-mode adjustment in
`getConfig` reads and writes. `bindAddresses = none` models a nil
`conf.BindAddresses` slice. `rtcIPsIncludes` models
`conf.RTC.IPs.Includes`. -/
structure DevConfig where
  development : Bool
  keys : KeyMap
  bindAddresses : Option (List String)
  rtcIPsIncludes : List String
deriving DecidableEq

/-- The development-mode block of `getConfig`: when `conf.Development` and
no keys are configured, substitute the placeholder keys
`{"devkey": "secret"}`; with a nil bind-address list default it to the
loopback addresses, otherwise append `addr+"/24"` RTC include rules when
some bound address is a parseable, non-loopback, non-unspecified IP
(that IP test — `net.ParseIP`, `IsLoopback`, `IsUnspecified` — is external,
abstracted as `isExternalIP`). -/
def getConfigDevAdjust (isExternalIP : String → Bool) (conf : DevConfig) :
    DevConfig :=
  if conf.development ∧ conf.keys = [] then
    let withKeys := { conf with keys := [("devkey", "secret")] }
    match conf.bindAddresses with
    | none =>
      { withKeys with bindAddresses := some ["127.0.0.1", "::1"] }
    | some addrs =>
      if addrs.any isExternalIP then
        { withKeys with
          rtcIPsIncludes :=
            conf.rtcIPsIncludes ++ addrs.map (fun a => a ++ "/24") }
      else withKeys
  else conf


/-- After two signals have been consumed, the loop has exited and no
further stop requests are emitted, whatever signals still arrive. -/
theorem startServerSignalRun_exhausted (sigs : List Sig) :
    startServerSignalRun 2 sigs = [] := by
  induction sigs with
  | nil => rfl
  | cons s rest ih =>
    simpa [startServerSignalRun, startServerSignalStep] using ih

/-- C1: the Storage backend and the MessageBus agree on deployment mode for
every configuration: whenever `createRedisClient` succeeds, a nil client
(endpoint not configured) yields the local store and the local bus, a
non-nil client (endpoint configured) yields the Redis store and the Redis
bus, and in all cases the two kinds coincide — a mixed pair is never
produced. -/
theorem backend_mode_agreement
    (connect : RedisEndpoint → Except String RedisClient)
    (redisConf : Option RedisEndpoint) (rc : Option RedisClient)
    (h : createRedisClient connect redisConf = Except.ok rc) :
    (createStore rc).isLocal = (getMessageBus rc).isLocal ∧
    (redisConf = none →
      createStore rc = ObjectStore.localStore ∧
      getMessageBus rc = MessageBus.localBus) ∧
    (redisConf ≠ none →
      ∃ c, rc = some c ∧
        createStore rc = ObjectStore.redisStore c ∧
        getMessageBus rc = MessageBus.redisBus c) := by
  refine ⟨by cases rc <;> rfl, ?_, ?_⟩
  · rintro rfl
    simp only [createRedisClient] at h
    injection h with h
    subst h
    exact ⟨rfl, rfl⟩
  · intro hne
    rcases redisConf with _ | ep
    · exact absurd rfl hne
    · simp only [createRedisClient] at h
      cases hc : connect ep with
      | ok c =>
        rw [hc] at h
        injection h with h
        subst h
        exact ⟨c, rfl, rfl, rfl⟩
      | error e =>
        rw [hc] at h
        cases h

/-- Witness for C1 at a concrete configuration: with no endpoint
configured, the selected pair is the local store and the local bus. -/
theorem backend_mode_agreement_witness :
    createStore none = ObjectStore.localStore ∧
    getMessageBus none = MessageBus.localBus :=
  (backend_mode_agreement (fun _ => Except.error "unreachable") none none
    rfl).2.1 rfl

/-- C2: the stop requests emitted by the `startServer` signal loop are
exactly the first `|sigs|` elements of `[false, true]`: the first signal
causes one graceful stop request (`force = false`), the second one forced
stop request (`force = true`), and any later signal causes none. -/
theorem startServer_two_phase_shutdown (sigs : List Sig) :
    startServerSignalRun 0 sigs = List.take sigs.length [false, true] := by
  match sigs with
  | [] => rfl
  | [_] => rfl
  | s1 :: s2 :: rest =>
    simp [startServerSignalRun, startServerSignalStep,
      startServerSignalRun_exhausted]

/-- C6: the egress, ingress and SIP feature stores are derived from the
Redis store only — on a Redis backend each accessor returns that store,
and on the local in-process backend each returns the nil "unsupported"
marker. -/
theorem feature_stores_require_redis (s : ObjectStore) :
    (∀ rc, s = ObjectStore.redisStore rc →
      getEgressStore s = some s ∧ getIngressStore s = some s ∧
      getSIPStore s = some s) ∧
    (s.isLocal = true →
      getEgressStore s = none ∧ getIngressStore s = none ∧
      getSIPStore s = none) := by
  cases s <;>
    simp [getEgressStore, getIngressStore, getSIPStore, ObjectStore.isLocal]

/-- Witness for C6 at concrete backends: the local store yields the
unsupported marker for egress, and a Redis store yields itself for SIP. -/
theorem feature_stores_require_redis_witness :
    getEgressStore ObjectStore.localStore = none ∧
    getSIPStore (ObjectStore.redisStore ⟨0⟩) =
      some (ObjectStore.redisStore ⟨0⟩) :=
  ⟨((feature_stores_require_redis ObjectStore.localStore).2 rfl).1,
   ((feature_stores_require_redis (ObjectStore.redisStore ⟨0⟩)).1 ⟨0⟩
      rfl).2.2⟩

/-- C7: a non-empty inline configuration body always wins: for every
filesystem and every file path, `getConfigString` resolves to the inline
body with no error, never touching the file. -/
theorem getConfigString_inline_precedence (fs : ConfigFS)
    (configFile inConfigBody : String) (h : inConfigBody ≠ "") :
    getConfigString fs configFile inConfigBody = (inConfigBody, none) := by
  unfold getConfigString
  rw [if_pos (Or.inl h)]

/-- Witness for C7 at a concrete input: with both an inline body and a
file path set (and the file readable with different contents), the inline
body is returned. -/
theorem getConfigString_inline_precedence_witness :
    getConfigString (fun _ => some "fileContent") "file" "configBody" =
      ("configBody", none) :=
  getConfigString_inline_precedence (fun _ => some "fileContent") "file"
    "configBody" (by decide)

/-- C8: with an empty inline body, `getConfigString` returns the empty
string and no error when no file path is given; returns exactly the file
contents and no error when the file exists; and returns an error together
with an empty resolved string when the read fails. -/
theorem getConfigString_empty_inline (fs : ConfigFS) (configFile : String) :
    (configFile = "" → getConfigString fs configFile "" = ("", none)) ∧
    (configFile ≠ "" → ∀ contents, fs configFile = some contents →
      getConfigString fs configFile "" = (contents, none)) ∧
    (configFile ≠ "" → fs configFile = none →
      ∃ e, getConfigString fs configFile "" = ("", some e)) := by
  refine ⟨?_, ?_, ?_⟩
  · intro h
    unfold getConfigString
    rw [if_pos (Or.inr h)]
  · intro h contents hfs
    unfold getConfigString
    rw [if_neg (by simp [h]), hfs]
  · intro h hfs
    unfold getConfigString
    rw [if_neg (by simp [h]), hfs]
    exact ⟨_, rfl⟩

/-- Witness for C8 at concrete inputs: the three branches at the test
scenarios of the repository. -/
theorem getConfigString_empty_inline_witness :
    getConfigString (fun _ => none) "" "" = ("", none) ∧
    getConfigString (fun p => if p = "file" then some "fileContent" else none)
      "file" "" = ("fileContent", none) ∧
    ∃ e, getConfigString (fun _ => none) "notExistingFile" "" = ("", some e) :=
  ⟨(getConfigString_empty_inline (fun _ => none) "").1 rfl,
   (getConfigString_empty_inline
      (fun p => if p = "file" then some "fileContent" else none) "file").2.1
      (by decide) "fileContent" (by decide),
   (getConfigString_empty_inline (fun _ => none) "notExistingFile").2.2
      (by decide) rfl⟩

/-- C9: `main` exits with status 1 exactly when the run panicked and the
top-level recover boundary caught it; an error returned by the command is
printed and the process exits with status 0; ordinary completion exits
with status 0 and prints nothing. -/
theorem main_exit_codes (o : CmdOutcome) :
    (mainExitCode o = 1 ↔ o = CmdOutcome.panicked) ∧
    (∀ msg, o = CmdOutcome.errored msg → mainResult o = (0, [msg])) ∧
    (o = CmdOutcome.completed → mainResult o = (0, [])) := by
  cases o <;> simp [mainExitCode, mainResult]

/-- Witness for C9 at a concrete outcome: a startup error is printed and
the exit status is 0. -/
theorem main_exit_codes_witness :
    mainResult (CmdOutcome.errored "config error") = (0, ["config error"]) :=
  (main_exit_codes (CmdOutcome.errored "config error")).2.1 "config error" rfl

/-- Storing one entry never empties a key map. -/
theorem setKey_ne_nil (m : KeyMap) (k v : String) : setKey m k v ≠ [] := by
  unfold setKey
  split
  · rename_i hany
    intro hnil
    rw [List.map_eq_nil_iff] at hnil
    subst hnil
    simp at hany
  · simp

/-- Merging never empties a non-empty key map. -/
theorem mergeKeys_ne_nil_of_old (decoded : KeyMap) :
    ∀ old : KeyMap, old ≠ [] → mergeKeys old decoded ≠ [] := by
  induction decoded with
  | nil =>
    intro old ho
    simpa [mergeKeys] using ho
  | cons p t ih =>
    intro old _
    simpa [mergeKeys] using ih (setKey old p.1 p.2) (setKey_ne_nil old p.1 p.2)

/-- Merging a non-empty decoded file into any key map gives a non-empty
key map. -/
theorem mergeKeys_ne_nil (old decoded : KeyMap) (hd : decoded ≠ []) :
    mergeKeys old decoded ≠ [] := by
  cases decoded with
  | nil => exact absurd rfl hd
  | cons p t =>
    simpa [mergeKeys] using
      mergeKeys_ne_nil_of_old t (setKey old p.1 p.2) (setKey_ne_nil old p.1 p.2)

/-- With no key file configured, the inline keys pass through untouched. -/
theorem loadKeyFile_no_file (fs : KeyFS) (keys : KeyMap) :
    loadKeyFile fs "" keys = Except.ok keys := by
  simp [loadKeyFile]

/-- A key file with a non-zero "others" permission bit is rejected,
whatever it contains. -/
theorem loadKeyFile_bad_perm (fs : KeyFS) (keyFile : String) (keys : KeyMap)
    (f : KeyFileData) (h : keyFile ≠ "") (hfs : fs keyFile = some f)
    (hperm : otherBits f.perm ≠ 0) :
    loadKeyFile fs keyFile keys =
      Except.error "key file others permissions must be set to 0" := by
  simp [loadKeyFile, h, hfs, hperm]

/-- A key file with zero "others" bits that decodes is merged over the
inline keys. -/
theorem loadKeyFile_ok (fs : KeyFS) (keyFile : String) (keys : KeyMap)
    (f : KeyFileData) (decoded : KeyMap) (h : keyFile ≠ "")
    (hfs : fs keyFile = some f) (hperm : otherBits f.perm = 0)
    (hp : f.parsed = some decoded) :
    loadKeyFile fs keyFile keys = Except.ok (mergeKeys keys decoded) := by
  simp [loadKeyFile, h, hfs, hperm, hp]

/-- A failed key-file load propagates out of `createKeyProvider`. -/
theorem createKeyProvider_of_load_error (fs : KeyFS) (keyFile : String)
    (keys : KeyMap) (e : String)
    (h : loadKeyFile fs keyFile keys = Except.error e) :
    createKeyProvider fs keyFile keys = Except.error e := by
  unfold createKeyProvider
  rw [h]

/-- A successful key-file load is followed only by the emptiness check. -/
theorem createKeyProvider_of_load_ok (fs : KeyFS) (keyFile : String)
    (keys ks : KeyMap) (h : loadKeyFile fs keyFile keys = Except.ok ks) :
    createKeyProvider fs keyFile keys =
      if ks.length = 0 then
        Except.error
          "one of key-file or keys must be provided in order to support a secure installation"
      else Except.ok ks := by
  unfold createKeyProvider
  rw [h]

/-- C3 counterexample: with one inline key and a key file whose "others"
permission bits are non-zero, `createKeyProvider` reads the file and
fails, instead of returning the inline set with the file unread. -/
theorem createKeyProvider_inline_first_cex :
    createKeyProvider
      (fun p => if p = "keys.yaml"
        then some ⟨0o644, some [("filekey", "filesecret")]⟩ else none)
      "keys.yaml" [("inlinekey", "inlinesecret")] ≠
      Except.ok [("inlinekey", "inlinesecret")] := by
  intro h
  rw [createKeyProvider_of_load_error _ _ _
        "key file others permissions must be set to 0"
        (loadKeyFile_bad_perm _ "keys.yaml" _
          ⟨0o644, some [("filekey", "filesecret")]⟩ (by decide) (by simp)
          (by decide))] at h
  cases h

/-- C3 (amended): `createKeyProvider` prefers the key file — whenever a
file path is supplied the file is consulted (its permission bits decide
the outcome and its decoded entries are merged over the inline set);
inline pairs are used directly, with no file access, exactly when no file
path is supplied. -/
theorem createKeyProvider_keyfile_precedence (fs : KeyFS) (keyFile : String)
    (keys : KeyMap) :
    (keyFile = "" →
      createKeyProvider fs keyFile keys =
        if keys.length = 0 then
          Except.error
            "one of key-file or keys must be provided in order to support a secure installation"
        else Except.ok keys) ∧
    (keyFile ≠ "" → ∀ f, fs keyFile = some f →
      (otherBits f.perm ≠ 0 →
        createKeyProvider fs keyFile keys =
          Except.error "key file others permissions must be set to 0") ∧
      (otherBits f.perm = 0 → ∀ decoded, f.parsed = some decoded →
        createKeyProvider fs keyFile keys =
          if (mergeKeys keys decoded).length = 0 then
            Except.error
              "one of key-file or keys must be provided in order to support a secure installation"
          else Except.ok (mergeKeys keys decoded))) := by
  refine ⟨?_, ?_⟩
  · rintro rfl
    exact createKeyProvider_of_load_ok fs "" keys keys
      (loadKeyFile_no_file fs keys)
  · intro h f hfs
    refine ⟨?_, ?_⟩
    · intro hperm
      exact createKeyProvider_of_load_error fs keyFile keys _
        (loadKeyFile_bad_perm fs keyFile keys f h hfs hperm)
    · intro hperm decoded hp
      exact createKeyProvider_of_load_ok fs keyFile keys _
        (loadKeyFile_ok fs keyFile keys f decoded h hfs hperm hp)

/-- Witness for the amended C3 at a concrete input: with an inline key and
a well-permissioned key file, the file entries are merged over the inline
set rather than ignored. -/
theorem createKeyProvider_keyfile_precedence_witness :
    createKeyProvider (fun _ => some ⟨0o600, some [("filekey", "filesecret")]⟩)
      "keys.yaml" [("inlinekey", "inlinesecret")] =
      Except.ok [("inlinekey", "inlinesecret"), ("filekey", "filesecret")] := by
  rw [((createKeyProvider_keyfile_precedence
      (fun _ => some ⟨0o600, some [("filekey", "filesecret")]⟩) "keys.yaml"
      [("inlinekey", "inlinesecret")]).2 (by decide)
      ⟨0o600, some [("filekey", "filesecret")]⟩ rfl).2 (by decide)
      [("filekey", "filesecret")] rfl]
  rfl

/-- C4: for a configured key file, a non-zero "others" permission bit
makes `createKeyProvider` fail whatever the contents, while zero "others"
bits and a decoded non-empty entry set make it succeed. -/
theorem createKeyProvider_perm_gate (fs : KeyFS) (keyFile : String)
    (keys : KeyMap) (f : KeyFileData) (h : keyFile ≠ "")
    (hfs : fs keyFile = some f) :
    (otherBits f.perm ≠ 0 →
      createKeyProvider fs keyFile keys =
        Except.error "key file others permissions must be set to 0") ∧
    (otherBits f.perm = 0 → ∀ decoded, f.parsed = some decoded →
      decoded ≠ [] →
      createKeyProvider fs keyFile keys =
        Except.ok (mergeKeys keys decoded)) := by
  refine ⟨?_, ?_⟩
  · intro hperm
    exact createKeyProvider_of_load_error fs keyFile keys _
      (loadKeyFile_bad_perm fs keyFile keys f h hfs hperm)
  · intro hperm decoded hp hd
    rw [createKeyProvider_of_load_ok fs keyFile keys _
      (loadKeyFile_ok fs keyFile keys f decoded h hfs hperm hp)]
    rw [if_neg
      (by simpa [List.length_eq_zero] using mergeKeys_ne_nil keys decoded hd)]

/-- Witness for C4 at concrete inputs: a world-readable key file is
rejected, and a private key file with one entry loads. -/
theorem createKeyProvider_perm_gate_witness :
    createKeyProvider (fun _ => some ⟨0o604, some [("k", "s")]⟩) "p" [] =
      Except.error "key file others permissions must be set to 0" ∧
    createKeyProvider (fun _ => some ⟨0o640, some [("k", "s")]⟩) "p" [] =
      Except.ok [("k", "s")] := by
  refine ⟨?_, ?_⟩
  · exact (createKeyProvider_perm_gate (fun _ => some ⟨0o604, some [("k", "s")]⟩)
      "p" [] ⟨0o604, some [("k", "s")]⟩ (by decide) rfl).1 (by decide)
  · rw [(createKeyProvider_perm_gate (fun _ => some ⟨0o640, some [("k", "s")]⟩)
      "p" [] ⟨0o640, some [("k", "s")]⟩ (by decide) rfl).2 (by decide)
      [("k", "s")] rfl (by decide)]
    rfl

/-- C5: `createKeyProvider` never returns an empty credential set — every
successful result holds at least one key. -/
theorem createKeyProvider_never_empty (fs : KeyFS) (keyFile : String)
    (keys ks : KeyMap)
    (h : createKeyProvider fs keyFile keys = Except.ok ks) : ks ≠ [] := by
  cases hl : loadKeyFile fs keyFile keys with
  | error e =>
    rw [createKeyProvider_of_load_error fs keyFile keys e hl] at h
    cases h
  | ok k =>
    rw [createKeyProvider_of_load_ok fs keyFile keys k hl] at h
    by_cases hz : k.length = 0
    · rw [if_pos hz] at h
      cases h
    · rw [if_neg hz] at h
      injection h with h2
      subst h2
      simpa [List.length_eq_zero] using hz

/-- Witness for C5 at a concrete input: the provider obtained from one
inline key is backed by a non-empty set. -/
theorem createKeyProvider_never_empty_witness :
    ([("devkey", "secret")] : KeyMap) ≠ [] :=
  createKeyProvider_never_empty (fun _ => none) "" [("devkey", "secret")]
    [("devkey", "secret")] rfl

/-- C10: the development-mode carve-out of `getConfig` — with development
mode on and an empty credential set, the placeholder keys
`devkey: secret` are substituted, and a nil bind-address list is defaulted
to the loopback addresses `127.0.0.1` and `::1`. -/
theorem getConfig_dev_defaults (isExternalIP : String → Bool)
    (conf : DevConfig) (hdev : conf.development = true)
    (hkeys : conf.keys = []) :
    (getConfigDevAdjust isExternalIP conf).keys = [("devkey", "secret")] ∧
    (conf.bindAddresses = none →
      (getConfigDevAdjust isExternalIP conf).bindAddresses =
        some ["127.0.0.1", "::1"]) := by
  unfold getConfigDevAdjust
  rw [if_pos ⟨hdev, hkeys⟩]
  refine ⟨?_, ?_⟩
  · cases hb : conf.bindAddresses with
    | none => simp [hb]
    | some addrs =>
      simp only [hb]
      split <;> rfl
  · intro hn
    simp [hn]

/-- Witness for C10 at a concrete configuration: development mode, no
keys, nil bind addresses. -/
theorem getConfig_dev_defaults_witness :
    (getConfigDevAdjust (fun _ => false)
        ⟨true, [], none, []⟩).keys = [("devkey", "secret")] ∧
    (getConfigDevAdjust (fun _ => false)
        ⟨true, [], none, []⟩).bindAddresses = some ["127.0.0.1", "::1"] :=
  ⟨(getConfig_dev_defaults (fun _ => false) ⟨true, [], none, []⟩ rfl rfl).1,
   (getConfig_dev_defaults (fun _ => false) ⟨true, [], none, []⟩ rfl rfl).2 rfl⟩

end LiveKit
